import Mathlib

/-!
# MarketView — verification of the aggregation / report-synthesis spec

Shallow embedding of the MarketView repository (React frontend under
`frontend/src`, plus the README-described FastAPI backend).  Frontend
functions are translated directly from the TypeScript source; backend
components that are described by the spec but whose Python source is not
part of the repository snapshot (DataAggregator, Freshness Cache, Report
Builder, Formatter) are modelled from the spec and marked as such in
their doc comments.
-/

namespace MarketView

/-! ## Data source context — `frontend/src/context/DataSourceContext.tsx` -/

/-- `export type DataSource = "live" | "mock"` — the closed data-source mode. -/
inductive DataSource where
  | live
  | mock
deriving DecidableEq, Repr

/-- Initialization of the `DataSourceProvider` state:
`const stored = localStorage.getItem(STORAGE_KEY); return stored === "mock" ? "mock" : "live";`
`localStorage.getItem` returns a string or `null`, embedded as `Option String`. -/
def initialSource (stored : Option String) : DataSource :=
  if stored = some "mock" then DataSource.mock else DataSource.live

/-! ## Regime classification — `frontend/src/pages/Dashboard.tsx` (`fetchData`)
and the closed regime label set of `StatusBadge.tsx` (`colorMap`). -/

/-- The market-regime keys of `colorMap` in `StatusBadge.tsx`: the closed set
of regime labels. -/
def regimeLabels : List String :=
  ["goldilocks", "risk_on", "inflationary_expansion", "stagflation",
   "deflationary", "risk_off"]

/-- The regime update of `Dashboard.fetchData`: when `cpi.latest_value` is
present, `> 3.0` gives `inflationary_expansion`, `< 1.5` gives
`deflationary`, otherwise `goldilocks`; when the CPI input is missing the
`setRegime` call is skipped, so the previous regime state (initially
`"risk_on"`, from `useState("risk_on")`) is kept. -/
def classifyRegime (cpi : Option ℚ) (prev : String) : String :=
  match cpi with
  | none => prev
  | some v =>
      if v > 3 then "inflationary_expansion"
      else if v < 15/10 then "deflationary"
      else "goldilocks"

/-- The initial regime state of the Dashboard page: `useState("risk_on")`. -/
def initialRegime : String := "risk_on"

/-! ## Report section assembly (levels and inclusion flags)

Modelled from the spec: the Report Builder (`src/reports/` of the backend)
is not part of the repository snapshot; its section assembly is modelled
from spec section 4.5 — level 1 gives Pulse + headline metrics only;
level 2 adds the asset-class breakdown plus technicals / sentiment /
correlations per the request flags; level 3 includes every optional
section plus volatility and the forward event watch regardless of flags. -/

/-- The request shape of `POST /api/v1/reports/generate`
(`ReportRequest` in `frontend/src/api/client.ts`), restricted to the
fields that drive section assembly. -/
structure ReportRequest where
  level : Nat
  includeTechnicals : Bool
  includeSentiment : Bool
  includeCorrelations : Bool
deriving DecidableEq, Repr

/-- Section identifiers of the assembled report (spec section 4.5). -/
inductive SectionId where
  | pulse
  | keyMetrics
  | assetBreakdown
  | technicals
  | sentimentSec
  | correlations
  | volatility
  | eventWatch
deriving DecidableEq, Repr

/-- Modelled from the spec: level-dependent section assembly of the Report
Builder (spec section 4.5; backend `src/reports/` absent from the
snapshot). -/
def assembleSections (req : ReportRequest) : List SectionId :=
  if req.level ≤ 1 then
    [SectionId.pulse, SectionId.keyMetrics]
  else if req.level = 2 then
    [SectionId.pulse, SectionId.keyMetrics, SectionId.assetBreakdown]
      ++ (if req.includeTechnicals then [SectionId.technicals] else [])
      ++ (if req.includeSentiment then [SectionId.sentimentSec] else [])
      ++ (if req.includeCorrelations then [SectionId.correlations] else [])
  else
    [SectionId.pulse, SectionId.keyMetrics, SectionId.assetBreakdown,
     SectionId.technicals, SectionId.sentimentSec, SectionId.correlations,
     SectionId.volatility, SectionId.eventWatch]

/-! ## Offline mock report generator — `frontend/src/pages/Reports.tsx`
(`generateMockReport`), and the surrounding `handleGenerate` logic. -/

/-- `levelLabels` in `Reports.tsx`: 1 = Executive, 2 = Standard,
3 = Deep Dive (other keys are absent from the record; the function is
only applied at levels 1..3). -/
def levelLabel : Nat → String
  | 1 => "Executive"
  | 2 => "Standard"
  | 3 => "Deep Dive"
  | _ => ""

/-- The fixed remainder of the `base` template of `generateMockReport`,
after the interpolated timestamp. -/
def mockBaseRest : String :=
  " (offline mock)\n\n## Market Pulse\n**Regime:** Risk-On — Moderate confidence (72%)\n- Equities trending higher on strong earnings\n- VIX subdued below 17, signaling low implied vol\n- Credit spreads remain tight\n\n## Key Metrics\n| Asset       | Price      | Change  |\n|-------------|-----------|---------|\n| S&P 500     | 5,924.02  | +0.24%  |\n| NASDAQ      | 19,223.84 | +0.56%  |\n| VIX         | 16.32     | -3.18%  |\n| 10Y UST     | 4.28%     | +2 bps  |\n| Bitcoin     | $97,432   | +1.87%  |\n| Gold        | $2,918    | +0.42%  |\n| DXY         | 106.82    | -0.15%  |\n\n## Macro Overview\n- **Inflation:** CPI at 2.8% YoY, trending toward target\n- **Growth:** GDP tracking 2.3% annualized\n- **Labor:** Unemployment steady at 3.9%, initial claims benign\n- **Policy:** Fed Funds at 5.33%, market pricing 2 cuts in 2025"

/-- The `sentiment` block of `generateMockReport`. -/
def mockSentiment : String :=
  "\n\n## Sentiment Analysis\n**Overall: Bullish** (score: +0.28, bullish ratio: 63%)\n*842 posts analyzed across 6 subreddits (reddit)*\n\nRetail sentiment across financial Reddit is **bullish** with an overall score of +0.28\nand 63% of posts leaning bullish. Most-discussed tickers: $NVDA, $TSLA, $AAPL, $SPY, $BTC.\nr/wallstreetbets is the most bullish community (+0.41). r/investing tilts most bearish (-0.08).\n\n### Trending Tickers\n| Ticker | Mentions |\n|--------|----------|\n| $NVDA | 127 |\n| $TSLA | 98 |\n| $AAPL | 76 |\n| $SPY | 61 |\n| $BTC | 55 |\n\n### Subreddit Breakdown\n| Subreddit | Score | Bullish | Posts | Top Ticker |\n|-----------|-------|---------|-------|------------|\n| r/wallstreetbets | +0.41 | 71% | 312 | $NVDA |\n| r/stocks | +0.22 | 58% | 187 | $AAPL |\n| r/cryptocurrency | +0.35 | 67% | 143 | $BTC |\n| r/investing | -0.08 | 42% | 118 | $SPY |\n| r/options | +0.18 | 55% | 82 | $TSLA |"

/-- The `standard` block of `generateMockReport`. -/
def mockStandard : String :=
  "\n\n## Asset Class Breakdown\n\n### Equities\nUS large caps leading with tech outperformance. Breadth improving as small caps\nrecover from January drawdown. Global indices mixed — Europe strong on ECB pause,\nAsia-Pacific lagging on China property concerns.\n\n### Fixed Income\nYield curve remains inverted at -105bps (2s10s). Long end selling off on supply\nconcerns. Credit: HY spreads at 321bps (tight), IG at 89bps. No stress signals.\n\n### FX\nDollar index (DXY) consolidating near 107. EUR/USD testing 1.04 support.\nUSD/JPY volatile around 152 on BoJ intervention fears.\n\n### Commodities\nGold pushing all-time highs on central bank buying. Crude rangebound $68-$74\non balanced OPEC+ supply. Copper firming on green transition demand.\n\n### Crypto\nBitcoin holding above $95K, ETF inflows steady. Ethereum lagging at $2,700.\nCrypto fear/greed index: 68 (Greed)."

/-- The `deep` block of `generateMockReport`. -/
def mockDeep : String :=
  "\n\n## Technical Levels\n| Asset   | Support 1 | Support 2 | Resistance 1 | Resistance 2 | RSI  | Signal |\n|---------|-----------|-----------|--------------|--------------|------|--------|\n| SPX     | 5,850     | 5,780     | 5,960        | 6,020        | 58.4 | Neutral|\n| NASDAQ  | 18,900    | 18,500    | 19,400       | 19,800       | 62.1 | Bullish|\n| 10Y UST | 4.20%     | 4.10%     | 4.35%        | 4.45%        | 51.2 | Neutral|\n| Gold    | $2,880    | $2,840    | $2,950       | $3,000       | 67.8 | Bullish|\n| BTC     | $93,000   | $88,500   | $100,000     | $105,000     | 55.3 | Neutral|\n\n## Volatility Assessment\n- VIX at 16.32 — 28th percentile (below avg)\n- MOVE Index: 98.4 — rates vol subdued\n- Skew: moderately elevated, put protection bid intact\n\n## Correlation Matrix Highlights\n- SPX / BTC: +0.42 (moderate, rising)\n- Gold / DXY: -0.78 (strong inverse, as expected)\n- 10Y / SPX: -0.31 (weak inverse, decoupling)\n- VIX / Credit HY: +0.65 (risk-off correlation intact)\n\n## Forward Look\n### Key Events (Next 7 Days)\n- **Wed:** FOMC Minutes release\n- **Thu:** Initial jobless claims, existing home sales\n- **Fri:** Flash PMIs (US, EU, Japan)\n\n### Outlier Scenario\n**Event:** Surprise BoJ rate hike to 0.50%\n**Probability:** Low (15%)\n**Impact:** JPY surge, carry trade unwind, equity vol spike\n**Hedge:** Long JPY calls, short Nikkei futures"

/-- `generateMockReport(level)` from `Reports.tsx`.  The source computes
`const timestamp = new Date().toLocaleString()` from the wall clock at call
time; that rendered timestamp is the explicit `timestamp` argument here.
The `base` template interpolates `levelLabels[level]` and `timestamp`;
level 1 returns `base` plus the executive end marker, level 2 appends the
sentiment and standard blocks, level 3 additionally appends the deep
block. -/
def generateMockReport (level : Nat) (timestamp : String) : String :=
  let base : String :=
    "# MarketView " ++ levelLabel level ++ " Report\n> Generated " ++ timestamp
      ++ mockBaseRest
  if level = 1 then base ++ "\n\n---\n*End of Executive Summary*"
  else if level = 2 then
    base ++ mockSentiment ++ mockStandard ++ "\n\n---\n*End of Standard Report*"
  else
    base ++ mockSentiment ++ mockStandard ++ mockDeep
      ++ "\n\n---\n*End of Deep Dive Report*"

/-- The fixed part of a level-1 mock report before the timestamp. -/
def mockExecHeader : String := "# MarketView Executive Report\n> Generated "

/-- The fixed part of a level-1 mock report after the timestamp. -/
def mockExecTail : String := mockBaseRest ++ "\n\n---\n*End of Executive Summary*"

/-- Outcome of the `generateReport` API call as observed by
`handleGenerate` in `Reports.tsx`: `ok c` is a resolved call whose
`result.content` is `c` (`none` when the content field is absent), and
`failed` is any rejection — network error or timeout, including timeouts
of a slow LLM-enhanced generation, which land in the same `catch`. -/
inductive ApiOutcome where
  | ok (content : Option String)
  | failed
deriving DecidableEq, Repr

/-- The page state written by `handleGenerate`. -/
structure GenState where
  generatedContent : Option String
  offline : Bool
  generating : Bool
deriving DecidableEq, Repr

/-- `handleGenerate` from `Reports.tsx`: on a resolved call it shows
`result.content ?? "Report generated successfully."`; on any rejection it
falls back to the locally generated mock report and raises the offline
banner; `finally` always clears `generating`.  The selected enhancement
provider (`llmProvider`) only shapes the request sent to the API; the
failure handling is identical with or without it. -/
def handleGenerate (level : Nat) (timestamp : String) (llmProvider : Option String)
    (outcome : ApiOutcome) : GenState :=
  match llmProvider, outcome with
  | _, ApiOutcome.ok c =>
      { generatedContent := some (c.getD "Report generated successfully.")
        offline := false
        generating := false }
  | _, ApiOutcome.failed =>
      { generatedContent := some (generateMockReport level timestamp)
        offline := true
        generating := false }

/-! ## Aggregator, Freshness Cache, Mock Provider

Modelled from the spec: the backend `src/ingestion/aggregator.py`
(DataAggregator), the per-provider caches and the mock data module are
not part of the repository snapshot — only their HTTP callers
(`frontend/src/api/client.ts`) and the README description are.  The
fetch/cache/fallback sequence below follows spec section 4.3 step by
step; TTLs are the per-provider `cache_ttl` values listed in the
`DataSources` page (FRED 3600s, Yahoo Finance 900s, CoinGecko 300s,
Reddit 900s). -/

/-- The requested-domain enum of a Snapshot (spec section 3).  `econ` is
the macro/economic-series domain. -/
inductive Domain where
  | equities
  | fx
  | commodities
  | crypto
  | econ
  | sentiment
deriving DecidableEq, Repr

/-- The provenance tag of a Snapshot: live, mock, or
live-degraded-to-mock (spec section 3). -/
inductive Origin where
  | live
  | mock
  | degraded
deriving DecidableEq, Repr

/-- Modelled from the spec: the sub-items of each domain's schema (the
symbol keys of the domain payloads that appear in the frontend pages —
e.g. `data.us.spx`, `data.dxy`, `data.assets.bitcoin`). -/
def subItems : Domain → List String
  | Domain.equities => ["spx", "nasdaq", "vix"]
  | Domain.fx => ["dxy", "eurusd", "usdjpy"]
  | Domain.commodities => ["gold", "crude", "copper"]
  | Domain.crypto => ["bitcoin", "ethereum"]
  | Domain.econ => ["cpi", "gdp", "unemployment"]
  | Domain.sentiment => ["reddit"]

/-- Per-domain freshness TTL in seconds, the fixed configuration shown on
the `DataSources` page: FRED (macro) 3600, Yahoo Finance (equities / fx /
commodities) 900, CoinGecko (crypto) 300, Reddit (sentiment) 900. -/
def ttl : Domain → Nat
  | Domain.econ => 3600
  | Domain.equities => 900
  | Domain.fx => 900
  | Domain.commodities => 900
  | Domain.crypto => 300
  | Domain.sentiment => 900

/-- Modelled from the spec: the deterministic, argument-shaped Mock
Provider payload — one value per schema sub-item, a pure function of the
key. -/
def mockPayload (d : Domain) : List (String × Nat) :=
  (subItems d).map (fun k => (k, k.length))

/-- A Snapshot (spec section 3): domain, origin, fetch time, payload
(sub-item key/value pairs), and the spec's `partial` flag (`incomplete`
here), true when some but not all sub-items failed. -/
structure Snapshot where
  domain : Domain
  origin : Origin
  fetchedAt : Nat
  payload : List (String × Nat)
  incomplete : Bool
deriving DecidableEq, Repr

/-- A payload conforms to the domain schema when it carries exactly the
domain's sub-item keys, in order (spec section 3 invariant). -/
def schemaValid (d : Domain) (p : List (String × Nat)) : Prop :=
  p.map Prod.fst = subItems d

/-- Mock-mode Snapshot: Mock Provider invoked directly, tagged
`origin = mock` (spec section 4.3 step 1). -/
def mockSnap (d : Domain) (now : Nat) : Snapshot :=
  { domain := d, origin := Origin.mock, fetchedAt := now,
    payload := mockPayload d, incomplete := false }

/-- Modelled from the spec: one live Provider Adapter round for a domain.
`env k` is the outcome of the sub-item fetch for key `k` (`none` =
FetchError after the retry budget).  If every sub-item fails the whole
domain degrades to the Mock Provider payload with
`origin = live-degraded-to-mock`; otherwise the succeeded sub-items
populate the Snapshot and `incomplete` records whether any failed
(spec section 4.3 steps 3–4). -/
def fetchLive (d : Domain) (env : String → Option Nat) (now : Nat) : Snapshot :=
  let keys := subItems d
  let ok := keys.filterMap (fun k => (env k).map (fun v => (k, v)))
  if ok.isEmpty then
    { domain := d, origin := Origin.degraded, fetchedAt := now,
      payload := mockPayload d, incomplete := false }
  else
    { domain := d, origin := Origin.live, fetchedAt := now,
      payload := ok, incomplete := ok.length != keys.length }

/-- A Freshness Cache entry: cached Snapshot plus its absolute expiry
(spec section 3, CacheEntry). -/
structure CacheEntry where
  snap : Snapshot
  expiresAt : Nat
deriving DecidableEq, Repr

/-- The Freshness Cache, keyed by domain; newest write first
(last-writer-wins). -/
abbrev Cache := List (Domain × CacheEntry)

/-- Raw entry lookup: first (newest) entry stored under the domain. -/
def findEntry : Cache → Domain → Option CacheEntry
  | [], _ => none
  | (d', e) :: rest, d => if d' = d then some e else findEntry rest d

/-- Cache read honoring freshness: an entry is served only strictly
before its `expires_at`; at or past expiry the read is a miss
(spec section 3 invariant: never served past `expires_at`). -/
def lookupCache (c : Cache) (d : Domain) (now : Nat) : Option Snapshot :=
  match findEntry c d with
  | none => none
  | some e => if now < e.expiresAt then some e.snap else none

/-- Cache write (`put(key, value, ttl)`), newest first. -/
def putEntry (c : Cache) (d : Domain) (s : Snapshot) (expiresAt : Nat) : Cache :=
  (d, { snap := s, expiresAt := expiresAt }) :: c

/-- Result of one Aggregator domain request: the Snapshot, the updated
cache, and whether a live provider call was issued. -/
structure AggResult where
  snap : Snapshot
  cache : Cache
  liveCalled : Bool
deriving DecidableEq, Repr

/-- Modelled from the spec: the Aggregator's live-mode sequence for one
domain (spec section 4.3 steps 2–5): serve a fresh cache hit unmodified;
on miss invoke the live adapters; cache successful live results (full or
partial) with the domain TTL; never cache a degraded fallback. -/
def getDomain (env : String → Option Nat) (c : Cache) (d : Domain) (now : Nat) :
    AggResult :=
  match lookupCache c d now with
  | some s => { snap := s, cache := c, liveCalled := false }
  | none =>
      let s := fetchLive d env now
      if s.origin = Origin.live then
        { snap := s, cache := putEntry c d s (now + ttl d), liveCalled := true }
      else
        { snap := s, cache := c, liveCalled := true }

/-- Modelled from the spec: the API-facing entry for one domain request.
The `source` query parameter selects mock or live mode; an unknown value
is the only hard failure (ValidationError — spec sections 4.3 step 1,
6 and 7).  Provider failures never surface here: live mode always
returns `ok`. -/
def fetchDomain (sourceParam : String) (env : String → Option Nat)
    (c : Cache) (d : Domain) (now : Nat) : Except String AggResult :=
  if sourceParam = "mock" then
    Except.ok { snap := mockSnap d now, cache := c, liveCalled := false }
  else if sourceParam = "live" then
    Except.ok (getDomain env c d now)
  else
    Except.error "invalid source"

/-- Modelled from the spec: a composite request over several domains —
each domain runs its own fetch/cache/fallback sequence, threading the
shared cache (spec section 4.3 step 6; mirrored in the frontend by the
per-call `catch` inside `Promise.all` in `Dashboard.fetchData` and
`RedditFeed.fetchReddit`). -/
def runAll (env : Domain → String → Option Nat) (now : Nat) :
    Cache → List Domain → List Snapshot × Cache
  | c, [] => ([], c)
  | c, d :: ds =>
      let r := getDomain (env d) c d now
      let rest := runAll env now r.cache ds
      (r.snap :: rest.1, rest.2)

/-! ## Report structure and Formatter

Modelled from the spec: the backend `src/reports/` formatters (Markdown /
JSON / HTML / PDF, the four encodings of `ReportRequest.format` in
`frontend/src/api/client.ts`) are not part of the repository snapshot.
Spec section 4.6: the Formatter is a pure lossless structural transform —
every Section of the Report appears in every encoding, and the
structured-data (JSON) encoding can be parsed back into the same ordered
section set. -/

/-- An ordered, named report section (spec section 3, ReportSection). -/
structure RSection where
  name : String
  body : String
deriving DecidableEq, Repr

/-- A Report: ordered sections plus metadata (spec section 3). -/
structure Report where
  reportId : String
  level : Nat
  sections : List RSection
deriving DecidableEq, Repr

/-- The four output encodings of `ReportRequest.format`. -/
inductive Encoding where
  | markdown
  | json
  | html
  | pdf
deriving DecidableEq, Repr

/-- Field separator used by the structured-data encoding between a
section's name and body (ASCII unit separator). -/
def fieldSep : Char := Char.ofNat 31

/-- Escape character of the structured-data encoding (ASCII escape). -/
def escChar : Char := Char.ofNat 27

/-- Escape a section name for the structured-data encoding: the field
separator and the escape character itself are prefixed with the escape
character, so the first unescaped separator of a block is an unambiguous
name/body boundary — the encoding is lossless for every name. -/
def escapeChars : List Char → List Char
  | [] => []
  | c :: rest =>
      if c = fieldSep ∨ c = escChar then escChar :: c :: escapeChars rest
      else c :: escapeChars rest

/-- String form of the name escaping. -/
def escapeName (s : String) : String := (escapeChars s.data).asString

/-- Modelled from the spec: per-encoding serialization of one section.
The structured-data (json) block escapes the section name so that the
separator splits it unambiguously from the body. -/
def renderBlock : Encoding → RSection → String
  | Encoding.markdown, s => "## " ++ s.name ++ "\n" ++ s.body
  | Encoding.json, s => escapeName s.name ++ String.singleton fieldSep ++ s.body
  | Encoding.html, s => "<h2>" ++ s.name ++ "</h2><p>" ++ s.body ++ "</p>"
  | Encoding.pdf, s => s.name ++ "\n" ++ s.body

/-- Modelled from the spec: the Formatter — one serialized block per
section, in report order, for the requested encoding. -/
def formatReport (e : Encoding) (r : Report) : List String :=
  r.sections.map (renderBlock e)

/-- Split a structured-data block at its first unescaped field
separator, unescaping the name part: an escape character passes the
following character through verbatim; the first bare separator ends the
name, and everything after it is the body. -/
def splitSep : List Char → List Char × List Char
  | [] => ([], [])
  | c :: rest =>
      if c = fieldSep then ([], rest)
      else if c = escChar then
        match rest with
        | [] => ([], [])
        | d :: rest' =>
            let p := splitSep rest'
            (d :: p.1, p.2)
      else
        let p := splitSep rest
        (c :: p.1, p.2)

/-- Parse one structured-data block back into a section. -/
def decodeBlock (b : String) : RSection :=
  { name := (splitSep b.data).1.asString
    body := (splitSep b.data).2.asString }

/-- Parse the structured-data encoding back into its section list. -/
def decodeStructured (blocks : List String) : List RSection :=
  blocks.map decodeBlock

end MarketView

namespace MarketView

/-! ## Theorems -/

/-- C10: The data-source mode is always exactly one of `live` / `mock`; on
initialization any persisted value other than the exact string `"mock"`
(absent, corrupted, or arbitrary) is mapped to `live`, and `"mock"` maps
to `mock`. -/
theorem c10_initial_source_total (stored : Option String) :
    (initialSource stored = DataSource.live ∨ initialSource stored = DataSource.mock) ∧
    (stored ≠ some "mock" → initialSource stored = DataSource.live) ∧
    initialSource (some "mock") = DataSource.mock := by
  refine ⟨?_, ?_, rfl⟩
  · by_cases h : stored = some "mock" <;> simp [initialSource, h]
  · intro h
    simp [initialSource, h]

/-- C10 witness: a corrupted stored value maps to `live`. -/
theorem c10_initial_source_total_witness :
    initialSource (some "garbage") = DataSource.live ∧
    initialSource none = DataSource.live := by
  refine ⟨?_, ?_⟩
  · exact (c10_initial_source_total (some "garbage")).2.1 (by decide)
  · exact (c10_initial_source_total none).2.1 (by decide)

/-- C6 counterexample: the claim says a missing macro input yields a neutral
default label, but `Dashboard.fetchData` leaves the regime unchanged when
the CPI value is missing — two missing-input evaluations return different
labels depending on the prior regime state, so no fixed (neutral) default
label is returned; the page's initial value is `risk_on`, a risk-bullish
label, not a neutral one. -/
theorem c6_regime_counterexample :
    classifyRegime none "goldilocks" = "goldilocks" ∧
    classifyRegime none "risk_off" = "risk_off" ∧
    "goldilocks" ≠ "risk_off" ∧
    classifyRegime none initialRegime = "risk_on" := by
  refine ⟨rfl, rfl, by decide, rfl⟩

/-- C6 (amended): the regime classifier is total and deterministic — any
present CPI value yields exactly one label from the closed regime set of
`colorMap`, identical inputs yield identical labels, and a missing CPI
input keeps the previous regime label (initially `risk_on`) rather than
switching to a neutral default. -/
theorem c6_regime_total_deterministic (cpi : Option ℚ) (prev : String) :
    (∀ v : ℚ, cpi = some v → classifyRegime cpi prev ∈ regimeLabels) ∧
    (cpi = none → classifyRegime cpi prev = prev) ∧
    (∀ (cpi' : Option ℚ) (prev' : String),
      cpi' = cpi → prev' = prev →
      classifyRegime cpi' prev' = classifyRegime cpi prev) := by
  refine ⟨?_, ?_, ?_⟩
  · rintro v rfl
    simp only [classifyRegime, regimeLabels]
    split
    · simp
    · split <;> simp
  · rintro rfl
    rfl
  · rintro cpi' prev' rfl rfl
    rfl

/-- C6 witness: a concrete CPI reading of 2.8 lands in the closed regime
set (it classifies as `goldilocks`), and the classifier is insensitive to
everything but its inputs. -/
theorem c6_regime_total_deterministic_witness :
    classifyRegime (some (28/10)) "risk_on" ∈ regimeLabels ∧
    classifyRegime none "stagflation" = "stagflation" := by
  refine ⟨?_, ?_⟩
  · exact (c6_regime_total_deterministic (some (28/10)) "risk_on").1 (28/10) rfl
  · exact (c6_regime_total_deterministic none "stagflation").2.1 rfl

/-- C2: section assembly per level — a level-1 report never contains the
technicals, sentiment, or correlations sections even when their flags are
true; a level-3 report always contains them even when the flags are
false; at level 2 each flag exactly determines inclusion of its section. -/
theorem c2_level_gating (req : ReportRequest) :
    (req.level = 1 →
      SectionId.technicals ∉ assembleSections req ∧
      SectionId.sentimentSec ∉ assembleSections req ∧
      SectionId.correlations ∉ assembleSections req) ∧
    (req.level = 3 →
      SectionId.technicals ∈ assembleSections req ∧
      SectionId.sentimentSec ∈ assembleSections req ∧
      SectionId.correlations ∈ assembleSections req) ∧
    (req.level = 2 →
      (SectionId.technicals ∈ assembleSections req ↔ req.includeTechnicals) ∧
      (SectionId.sentimentSec ∈ assembleSections req ↔ req.includeSentiment) ∧
      (SectionId.correlations ∈ assembleSections req ↔ req.includeCorrelations)) := by
  obtain ⟨level, t, s, c⟩ := req
  refine ⟨?_, ?_, ?_⟩
  · rintro rfl
    cases t <;> cases s <;> cases c <;> decide
  · rintro rfl
    cases t <;> cases s <;> cases c <;> decide
  · rintro rfl
    cases t <;> cases s <;> cases c <;> decide

/-- C2 witness: at level 1 with all flags set true no optional section
appears, and at level 3 with all flags false they all appear. -/
theorem c2_level_gating_witness :
    SectionId.technicals ∉ assembleSections ⟨1, true, true, true⟩ ∧
    SectionId.technicals ∈ assembleSections ⟨3, false, false, false⟩ := by
  refine ⟨?_, ?_⟩
  · exact ((c2_level_gating ⟨1, true, true, true⟩).1 rfl).1
  · exact ((c2_level_gating ⟨3, false, false, false⟩).2.1 rfl).1

/-- C7 counterexample: two identical level-1 markdown mock requests made at
different wall-clock times render different timestamps and produce
different bytes — `generateMockReport` interpolates
`new Date().toLocaleString()` into the report header, so repeated calls
are not byte-identical. -/
theorem c7_mock_report_counterexample :
    generateMockReport 1 "1/1/2025, 9:00:00 AM" ≠
    generateMockReport 1 "1/1/2025, 9:00:01 AM" := by
  decide

/-- C7 (amended): the level-1 mock report is deterministic except for the
generation timestamp in its header — it equals a fixed prefix, then the
rendered timestamp, then a fixed suffix, so repeated calls are
byte-identical exactly when their rendered timestamps coincide. -/
theorem c7_mock_report_timestamp_only (ts : String) :
    generateMockReport 1 ts = mockExecHeader ++ ts ++ mockExecTail := by
  have h : mockExecHeader = "# MarketView " ++ levelLabel 1 ++ " Report\n> Generated " := rfl
  rw [h]
  unfold generateMockReport mockExecTail
  simp [String.append_assoc]

/-- On a cache miss the Aggregator's Snapshot is the live fetch result,
whichever branch the caching decision takes. -/
lemma getDomain_snap_of_miss (env : String → Option Nat) (c : Cache)
    (d : Domain) (now : Nat) (hmiss : lookupCache c d now = none) :
    (getDomain env c d now).snap = fetchLive d env now := by
  unfold getDomain
  rw [hmiss]
  dsimp only
  split <;> rfl

/-- On a cache miss the Aggregator issues a live call, whichever branch
the caching decision takes. -/
lemma getDomain_liveCalled_of_miss (env : String → Option Nat) (c : Cache)
    (d : Domain) (now : Nat) (hmiss : lookupCache c d now = none) :
    (getDomain env c d now).liveCalled = true := by
  unfold getDomain
  rw [hmiss]
  dsimp only
  split <;> rfl

/-- When every sub-item fails, the live round degrades to the mock
payload. -/
lemma fetchLive_all_failed (env : String → Option Nat) (d : Domain) (now : Nat)
    (hfail : ∀ k ∈ subItems d, env k = none) :
    fetchLive d env now
      = { domain := d, origin := Origin.degraded, fetchedAt := now,
          payload := mockPayload d, incomplete := false } := by
  have hempty :
      (subItems d).filterMap (fun k => (env k).map (fun v => (k, v))) = [] := by
    rw [List.filterMap_eq_nil_iff]
    intro k hk
    rw [hfail k hk]
    rfl
  unfold fetchLive
  simp only [hempty, List.isEmpty_nil, if_true]

/-- The mock payload always conforms to the domain schema. -/
lemma schemaValid_mockPayload (d : Domain) : schemaValid d (mockPayload d) := by
  cases d <;> rfl

/-- Writing an entry makes it the one found under its own key. -/
lemma findEntry_putEntry_self (c : Cache) (d : Domain) (s : Snapshot)
    (exp : Nat) :
    findEntry (putEntry c d s exp) d = some { snap := s, expiresAt := exp } := by
  unfold putEntry findEntry
  rw [if_pos rfl]

/-- C1: in live mode, when every sub-item of a domain fails, the
Aggregator still answers `ok` (the fallback is never raised as an error)
with a Snapshot produced by the Mock Provider, tagged
`origin = live-degraded-to-mock`, fully schema-valid and not partial. -/
theorem c1_full_failure_degrades_to_mock (env : String → Option Nat)
    (c : Cache) (d : Domain) (now : Nat)
    (hmiss : lookupCache c d now = none)
    (hfail : ∀ k ∈ subItems d, env k = none) :
    fetchDomain "live" env c d now = Except.ok (getDomain env c d now) ∧
    (getDomain env c d now).snap.origin = Origin.degraded ∧
    (getDomain env c d now).snap.payload = mockPayload d ∧
    schemaValid d (getDomain env c d now).snap.payload ∧
    (getDomain env c d now).snap.incomplete = false := by
  have hs := getDomain_snap_of_miss env c d now hmiss
  rw [fetchLive_all_failed env d now hfail] at hs
  refine ⟨rfl, ?_, ?_, ?_, ?_⟩
  · rw [hs]
  · rw [hs]
  · rw [hs]
    exact schemaValid_mockPayload d
  · rw [hs]

/-- C1 witness: with an empty cache and an adapter environment failing
every sub-item, the equities request returns the degraded mock snapshot
without error. -/
theorem c1_full_failure_degrades_to_mock_witness :
    fetchDomain "live" (fun _ => none) [] Domain.equities 0
      = Except.ok (getDomain (fun _ => none) [] Domain.equities 0) ∧
    (getDomain (fun _ => none) [] Domain.equities 0).snap.origin
      = Origin.degraded ∧
    (getDomain (fun _ => none) [] Domain.equities 0).snap.payload
      = mockPayload Domain.equities ∧
    schemaValid Domain.equities
      (getDomain (fun _ => none) [] Domain.equities 0).snap.payload ∧
    (getDomain (fun _ => none) [] Domain.equities 0).snap.incomplete = false :=
  c1_full_failure_degrades_to_mock (fun _ => none) [] Domain.equities 0 rfl
    (fun _ _ => rfl)

/-- C4: the Freshness Cache never serves an entry at or past its
`expires_at`; a miss always triggers a live fetch attempt; and after a
successful live fetch, a second request for the same domain within the
TTL window issues no second live call and is answered with the cached
snapshot. -/
theorem c4_ttl_and_single_live_call (env₁ env₂ : String → Option Nat)
    (c : Cache) (d : Domain) (t₁ t₂ : Nat) :
    (∀ e : CacheEntry, findEntry c d = some e → e.expiresAt ≤ t₁ →
      lookupCache c d t₁ = none) ∧
    (lookupCache c d t₁ = none → (getDomain env₁ c d t₁).liveCalled = true) ∧
    (lookupCache c d t₁ = none →
      (getDomain env₁ c d t₁).snap.origin = Origin.live →
      t₂ < t₁ + ttl d →
      (getDomain env₂ (getDomain env₁ c d t₁).cache d t₂).liveCalled = false ∧
      (getDomain env₂ (getDomain env₁ c d t₁).cache d t₂).snap
        = (getDomain env₁ c d t₁).snap) := by
  refine ⟨?_, ?_, ?_⟩
  · intro e he hle
    unfold lookupCache
    rw [he]
    simp [Nat.not_lt.mpr hle]
  · intro hmiss
    exact getDomain_liveCalled_of_miss env₁ c d t₁ hmiss
  · intro hmiss horig ht
    rw [getDomain_snap_of_miss env₁ c d t₁ hmiss] at horig
    have hr : getDomain env₁ c d t₁
        = { snap := fetchLive d env₁ t₁,
            cache := putEntry c d (fetchLive d env₁ t₁) (t₁ + ttl d),
            liveCalled := true } := by
      unfold getDomain
      rw [hmiss]
      dsimp only
      rw [if_pos horig]
    rw [hr]
    have hlk : lookupCache (putEntry c d (fetchLive d env₁ t₁) (t₁ + ttl d)) d t₂
        = some (fetchLive d env₁ t₁) := by
      unfold lookupCache
      rw [findEntry_putEntry_self]
      dsimp only
      rw [if_pos ht]
    unfold getDomain
    rw [hlk]
    exact ⟨rfl, rfl⟩

/-- C4 witness: after a successful live equities fetch at time 0, a second
request at time 100 (inside the 900 s TTL) is served from cache with no
live call — even against an environment in which every live call would
fail. -/
theorem c4_ttl_and_single_live_call_witness :
    (getDomain (fun _ => none)
        (getDomain (fun _ => some 1) [] Domain.equities 0).cache
        Domain.equities 100).liveCalled = false ∧
    (getDomain (fun _ => none)
        (getDomain (fun _ => some 1) [] Domain.equities 0).cache
        Domain.equities 100).snap
      = (getDomain (fun _ => some 1) [] Domain.equities 0).snap :=
  (c4_ttl_and_single_live_call (fun _ => some 1) (fun _ => none) []
      Domain.equities 0 100).2.2 rfl (by decide) (by decide)

/-- C5: on a cache miss, a successful live result (full or partial) is
written to the Freshness Cache with the domain's TTL, while a degraded
fallback leaves the cache unchanged, so the immediately following request
for that domain issues a live call again instead of serving the
fallback. -/
theorem c5_fallback_never_cached (env : String → Option Nat) (c : Cache)
    (d : Domain) (now : Nat) (hmiss : lookupCache c d now = none) :
    ((getDomain env c d now).snap.origin = Origin.live →
      findEntry (getDomain env c d now).cache d
        = some { snap := (getDomain env c d now).snap,
                 expiresAt := now + ttl d }) ∧
    ((getDomain env c d now).snap.origin = Origin.degraded →
      (getDomain env c d now).cache = c ∧
      ∀ env' : String → Option Nat,
        (getDomain env' (getDomain env c d now).cache d now).liveCalled
          = true) := by
  have hsnap := getDomain_snap_of_miss env c d now hmiss
  refine ⟨?_, ?_⟩
  · intro horig
    rw [hsnap] at horig
    have hr : getDomain env c d now
        = { snap := fetchLive d env now,
            cache := putEntry c d (fetchLive d env now) (now + ttl d),
            liveCalled := true } := by
      unfold getDomain
      rw [hmiss]
      dsimp only
      rw [if_pos horig]
    rw [hr]
    exact findEntry_putEntry_self c d (fetchLive d env now) (now + ttl d)
  · intro horig
    rw [hsnap] at horig
    have hne : ¬ (fetchLive d env now).origin = Origin.live := by
      rw [horig]
      decide
    have hr : getDomain env c d now
        = { snap := fetchLive d env now, cache := c, liveCalled := true } := by
      unfold getDomain
      rw [hmiss]
      dsimp only
      rw [if_neg hne]
    rw [hr]
    exact ⟨rfl, fun env' => getDomain_liveCalled_of_miss env' c d now hmiss⟩

/-- C5 witness: a fully failed sentiment fetch leaves the cache empty and
the immediately following request issues a live call again. -/
theorem c5_fallback_never_cached_witness :
    (getDomain (fun _ => none) [] Domain.sentiment 0).cache = ([] : Cache) ∧
    (getDomain (fun _ => some 5)
        (getDomain (fun _ => none) [] Domain.sentiment 0).cache
        Domain.sentiment 0).liveCalled = true := by
  refine ⟨?_, ?_⟩
  · exact ((c5_fallback_never_cached (fun _ => none) [] Domain.sentiment 0
      rfl).2 (by decide)).1
  · exact ((c5_fallback_never_cached (fun _ => none) [] Domain.sentiment 0
      rfl).2 (by decide)).2 (fun _ => some 5)

/-- A domain request leaves the cache unchanged at every other domain's
key. -/
lemma findEntry_getDomain_other (env : String → Option Nat) (c : Cache)
    (d₀ : Domain) (now : Nat) (d : Domain) (h : d₀ ≠ d) :
    findEntry (getDomain env c d₀ now).cache d = findEntry c d := by
  unfold getDomain
  cases lookupCache c d₀ now with
  | some s => rfl
  | none =>
      by_cases hl : (fetchLive d₀ env now).origin = Origin.live
      · simp [hl, putEntry, findEntry, h]
      · simp [hl]

/-- The Snapshot a domain request returns depends only on that domain's
cache key and adapter environment. -/
lemma getDomain_snap_agree (env : String → Option Nat) (c₁ c₂ : Cache)
    (d : Domain) (now : Nat) (hc : findEntry c₁ d = findEntry c₂ d) :
    (getDomain env c₁ d now).snap = (getDomain env c₂ d now).snap := by
  have hl : lookupCache c₁ d now = lookupCache c₂ d now := by
    unfold lookupCache
    rw [hc]
  unfold getDomain
  rw [hl]
  cases lookupCache c₂ d now with
  | some s => rfl
  | none =>
      by_cases hcond : (fetchLive d env now).origin = Origin.live
      · simp [hcond]
      · simp [hcond]

/-- One step of the composite request preserves cache agreement away from
the varied domain `B`. -/
lemma getDomain_cache_agree (env₁ env₂ : String → Option Nat)
    (c₁ c₂ : Cache) (d₀ : Domain) (now : Nat) (B : Domain)
    (hc : ∀ d, d ≠ B → findEntry c₁ d = findEntry c₂ d)
    (henv : d₀ ≠ B → env₁ = env₂) :
    ∀ d, d ≠ B → findEntry (getDomain env₁ c₁ d₀ now).cache d
      = findEntry (getDomain env₂ c₂ d₀ now).cache d := by
  intro d hd
  by_cases hd₀ : d₀ = B
  · subst hd₀
    rw [findEntry_getDomain_other env₁ c₁ d₀ now d (fun h => hd h.symm),
        findEntry_getDomain_other env₂ c₂ d₀ now d (fun h => hd h.symm)]
    exact hc d hd
  · rw [henv hd₀]
    have hl : lookupCache c₁ d₀ now = lookupCache c₂ d₀ now := by
      unfold lookupCache
      rw [hc d₀ hd₀]
    unfold getDomain
    rw [hl]
    cases lookupCache c₂ d₀ now with
    | some s => exact hc d hd
    | none =>
        by_cases hcond : (fetchLive d₀ env₂ now).origin = Origin.live
        · simp only [hcond, if_true]
          by_cases hdd : d₀ = d
          · subst hdd
            simp [putEntry, findEntry]
          · simp only [putEntry, findEntry, if_neg hdd]
            exact hc d hd
        · simp only [hcond, if_false]
          exact hc d hd

/-- Master induction for composite-request isolation: if two adapter
environments agree on every domain except `B` and two caches agree on
every key except `B`, then running the composite request produces the
same snapshot at every position whose domain is not `B`, and the final
caches still agree away from `B`. -/
lemma runAll_isolation (env₁ env₂ : Domain → String → Option Nat) (B : Domain)
    (henv : ∀ d, d ≠ B → env₁ d = env₂ d) (now : Nat) :
    ∀ (ds : List Domain) (c₁ c₂ : Cache),
      (∀ d, d ≠ B → findEntry c₁ d = findEntry c₂ d) →
      (∀ d, d ≠ B → findEntry (runAll env₁ now c₁ ds).2 d
        = findEntry (runAll env₂ now c₂ ds).2 d) ∧
      (∀ (i : Nat) (d : Domain), ds[i]? = some d → d ≠ B →
        (runAll env₁ now c₁ ds).1[i]? = (runAll env₂ now c₂ ds).1[i]?)
  | [], c₁, c₂, hc => by
      refine ⟨hc, ?_⟩
      intro i d hi
      simp at hi
  | d₀ :: ds, c₁, c₂, hc => by
      have hcache := getDomain_cache_agree (env₁ d₀) (env₂ d₀) c₁ c₂ d₀ now B hc
        (fun h => henv d₀ h)
      have ih := runAll_isolation env₁ env₂ B henv now ds
        (getDomain (env₁ d₀) c₁ d₀ now).cache
        (getDomain (env₂ d₀) c₂ d₀ now).cache hcache
      refine ⟨?_, ?_⟩
      · intro d hd
        simpa [runAll] using ih.1 d hd
      · intro i d hi hd
        cases i with
        | zero =>
            have hd₀ : d₀ = d := by simpa using hi
            subst hd₀
            have hsnap : (getDomain (env₁ d₀) c₁ d₀ now).snap
                = (getDomain (env₂ d₀) c₂ d₀ now).snap := by
              rw [henv d₀ hd]
              exact getDomain_snap_agree (env₂ d₀) c₁ c₂ d₀ now (hc d₀ hd)
            simp [runAll, hsnap]
        | succ j =>
            simp only [List.getElem?_cons_succ] at hi
            simpa [runAll] using ih.2 j d hi hd

/-- C9: domain isolation in a composite request — for distinct requested
domains `A` and `B`, the Snapshot returned for `A` is identical whether
`B`'s sub-item fetches succeed or fail (only `B`'s adapter environment
differs between the two runs), so one domain's fallback never causes
another domain's fallback. -/
theorem c9_domain_isolation (env₁ env₂ : Domain → String → Option Nat)
    (A B : Domain) (hAB : A ≠ B)
    (henv : ∀ d, d ≠ B → env₁ d = env₂ d)
    (ds : List Domain) (c : Cache) (now : Nat) (i : Nat)
    (hi : ds[i]? = some A) :
    (runAll env₁ now c ds).1[i]? = (runAll env₂ now c ds).1[i]? :=
  (runAll_isolation env₁ env₂ B henv now ds c c (fun _ _ => rfl)).2 i A hi hAB

/-- C9 witness: in a composite equities+crypto request, the equities
snapshot is the same whether the crypto adapter succeeds everywhere or
fails everywhere. -/
theorem c9_domain_isolation_witness :
    (runAll (fun _ k => some k.length) 0 []
        [Domain.equities, Domain.crypto]).1[0]?
      = (runAll (fun d k => if d = Domain.crypto then none else some k.length)
          0 [] [Domain.equities, Domain.crypto]).1[0]? :=
  c9_domain_isolation (fun _ k => some k.length)
    (fun d k => if d = Domain.crypto then none else some k.length)
    Domain.equities Domain.crypto (by decide)
    (fun d hd => by funext k; simp [hd])
    [Domain.equities, Domain.crypto] [] 0 0 rfl

/-- The separator and the escape character are distinct. -/
lemma fieldSep_ne_escChar : fieldSep ≠ escChar := by decide

/-- Splitting an escaped name, the separator, and any body recovers the
name and the body exactly — for every name and every body. -/
lemma splitSep_escape (n b : List Char) :
    splitSep (escapeChars n ++ fieldSep :: b) = (n, b) := by
  induction n with
  | nil =>
      show splitSep (fieldSep :: b) = ([], b)
      unfold splitSep
      rw [if_pos rfl]
  | cons a t ih =>
      by_cases ha : a = fieldSep ∨ a = escChar
      · have he : escapeChars (a :: t) = escChar :: a :: escapeChars t := by
          simp only [escapeChars]
          rw [if_pos ha]
        rw [he]
        show splitSep (escChar :: (a :: (escapeChars t ++ fieldSep :: b)))
          = (a :: t, b)
        unfold splitSep
        rw [if_neg fieldSep_ne_escChar.symm, if_pos rfl]
        dsimp only
        rw [ih]
      · rw [not_or] at ha
        have he : escapeChars (a :: t) = a :: escapeChars t := by
          simp only [escapeChars]
          rw [if_neg (not_or.mpr ha)]
        rw [he]
        show splitSep (a :: (escapeChars t ++ fieldSep :: b)) = (a :: t, b)
        unfold splitSep
        rw [if_neg ha.1, if_neg ha.2]
        dsimp only
        rw [ih]

/-- The character data of a structured-data block is the escaped name,
the separator, then the body. -/
lemma renderBlock_json_data (s : RSection) :
    (renderBlock Encoding.json s).data
      = escapeChars s.name.data ++ fieldSep :: s.body.data := by
  show (escapeName s.name ++ String.singleton fieldSep ++ s.body).data = _
  rw [String.data_append, String.data_append, List.append_assoc]
  rfl

/-- Decoding one structured-data block recovers the section exactly, for
every section. -/
lemma decodeBlock_renderBlock (s : RSection) :
    decodeBlock (renderBlock Encoding.json s) = s := by
  unfold decodeBlock
  rw [renderBlock_json_data s, splitSep_escape s.name.data s.body.data]
  rfl

/-- Decoding the structured-data encoding of any section list recovers
the list. -/
lemma decodeStructured_map (l : List RSection) :
    decodeStructured (l.map (renderBlock Encoding.json)) = l := by
  induction l with
  | nil => rfl
  | cons a t ih =>
      show decodeBlock (renderBlock Encoding.json a)
          :: decodeStructured (t.map (renderBlock Encoding.json)) = a :: t
      rw [decodeBlock_renderBlock a, ih]

/-- C8: the Formatter is an unconditionally lossless structural
transform — for every Report, parsing the structured-data encoding back
yields exactly the original ordered section list (hence the same ordered
section names); every encoding carries one block per section in report
order; and in each encoding the section at every position is fully
present — recoverable by decoding in the structured-data encoding, its
name embedded verbatim in the textual encodings. -/
theorem c8_formatter_lossless_roundtrip (r : Report) :
    decodeStructured (formatReport Encoding.json r) = r.sections ∧
    (decodeStructured (formatReport Encoding.json r)).map RSection.name
      = r.sections.map RSection.name ∧
    (∀ e : Encoding, (formatReport e r).length = r.sections.length) ∧
    ∀ (e : Encoding) (i : Nat) (s : RSection), r.sections[i]? = some s →
      ∃ b : String, (formatReport e r)[i]? = some b ∧
        (e = Encoding.json → decodeBlock b = s) ∧
        (e ≠ Encoding.json →
          ∃ pre post : List Char, b.data = pre ++ s.name.data ++ post) := by
  have hdec : decodeStructured (formatReport Encoding.json r) = r.sections :=
    decodeStructured_map r.sections
  refine ⟨hdec, by rw [hdec], ?_, ?_⟩
  · intro e
    exact List.length_map r.sections (renderBlock e)
  intro e i s hi
  refine ⟨renderBlock e s, ?_, ?_, ?_⟩
  · show (r.sections.map (renderBlock e))[i]? = some (renderBlock e s)
    rw [List.getElem?_map, hi]
    rfl
  · intro hjson
    rw [hjson]
    exact decodeBlock_renderBlock s
  · intro hne
    cases e with
    | markdown =>
        refine ⟨"## ".data, "\n".data ++ s.body.data, ?_⟩
        show ("## " ++ s.name ++ "\n" ++ s.body).data = _
        simp [String.data_append, List.append_assoc]
    | json => exact absurd rfl hne
    | html =>
        refine ⟨"<h2>".data, "</h2><p>".data ++ s.body.data ++ "</p>".data, ?_⟩
        show ("<h2>" ++ s.name ++ "</h2><p>" ++ s.body ++ "</p>").data = _
        simp [String.data_append, List.append_assoc]
    | pdf =>
        refine ⟨[], "\n".data ++ s.body.data, ?_⟩
        show (s.name ++ "\n" ++ s.body).data = _
        simp [String.data_append, List.append_assoc]

/-- C8 witness: a concrete report whose second section name even contains
the field separator character round-trips exactly through the
structured-data encoding. -/
theorem c8_formatter_lossless_roundtrip_witness :
    decodeStructured (formatReport Encoding.json
        { reportId := "r1", level := 1,
          sections := [{ name := "Pulse", body := "risk on" },
                       { name := "Key\x1fMetrics", body := "spx up" }] })
      = [{ name := "Pulse", body := "risk on" },
         { name := "Key\x1fMetrics", body := "spx up" }] :=
  (c8_formatter_lossless_roundtrip
    { reportId := "r1", level := 1,
      sections := [{ name := "Pulse", body := "risk on" },
                   { name := "Key\x1fMetrics", body := "spx up" }] }).1

/-- C3: any failure of the (optionally LLM-enhanced) report generation
call leaves the UI's success behavior unchanged — the caller always
receives the rule-based mock report, only the non-fatal offline marker is
raised, `generating` is cleared exactly as on success, and no error
propagates (the handler is total). -/
theorem c3_enhancement_failure_absorbed (level : Nat) (ts : String)
    (llmProvider : Option String) :
    (handleGenerate level ts llmProvider ApiOutcome.failed).generatedContent
        = some (generateMockReport level ts) ∧
    (handleGenerate level ts llmProvider ApiOutcome.failed).offline = true ∧
    (handleGenerate level ts llmProvider ApiOutcome.failed).generating = false ∧
    (∀ outcome : ApiOutcome,
      (handleGenerate level ts llmProvider outcome).generatedContent.isSome = true ∧
      (handleGenerate level ts llmProvider outcome).generating = false) ∧
    (∀ c : Option String,
      (handleGenerate level ts llmProvider (ApiOutcome.ok c)).offline = false) := by
  refine ⟨rfl, rfl, rfl, ?_, ?_⟩
  · intro outcome
    cases outcome <;> exact ⟨rfl, rfl⟩
  · intro c
    rfl

end MarketView
